import Mathlib

/-!
Shallow embedding of the cart / checkout logic of the Mundo Kids storefront.

Sources embedded:
 - `src/app/(tabs)/cart.tsx` — `handleCheckout`, `handleUpdateQuantity`
 - `src/supabase/migrations/20250607032402_wooden_villa.sql` — table shapes
   and row-level-security policies
 - the Cart Engine (`CartContext`: `addToCart`, `updateQuantity`,
   `removeFromCart`, `clearCart`, `totalPrice`) is consumed by the screens in
   `src/` but its implementation file is not among the sources; those
   operations are modelled from the specification (§4.1, §6), as marked on
   each definition.

Prices (`decimal(10,2)` columns, JS numbers in the client) are modelled as
exact rationals; quantities (integer columns) as integers.  Row ids are
opaque strings; ids generated by the store are taken as explicit parameters.
-/

namespace MundoKids

/-- Order status enumeration, from the `CHECK` constraint on `orders.status`
in the migration and the `Database` type in `src/lib/supabase.ts`. -/
inductive OrderStatus
  | pending
  | confirmed
  | shipped
  | delivered
  | cancelled
  deriving DecidableEq, Repr

/-- A row of the `products` table.  Only the columns the cart/checkout logic
reads are kept (`id`, `price`); presentation-only columns (name, description,
image_url, age_range, stock_quantity, category_id) are omitted. -/
structure ProductRow where
  id : String
  price : ℚ
  deriving DecidableEq, Repr

/-- A row of the `cart_items` table (`id` uuid, `user_id`, `product_id`,
`quantity` integer), from the migration. -/
structure CartItemRow where
  id : String
  user_id : String
  product_id : String
  quantity : ℤ
  deriving DecidableEq, Repr

/-- A row of the `orders` table (`id`, `user_id`, `total_amount`
decimal(10,2), `status`), from the migration. -/
structure OrderRow where
  id : String
  user_id : String
  total_amount : ℚ
  status : OrderStatus
  deriving DecidableEq, Repr

/-- A row of the `order_items` table (`order_id`, `product_id`, `quantity`,
`price` decimal(10,2)), from the migration.  The store-generated `id` column
is omitted (never read by the client). -/
structure OrderItemRow where
  order_id : String
  product_id : String
  quantity : ℤ
  price : ℚ
  deriving DecidableEq, Repr

/-- The remote store: the four tables the cart/checkout logic touches. -/
structure DB where
  products : List ProductRow
  cart_items : List CartItemRow
  orders : List OrderRow
  order_items : List OrderItemRow
  deriving DecidableEq, Repr

/-- An in-memory cart line as held by the Cart Engine and rendered by
`cart.tsx`: a `cart_items` row joined with its product
(`item.product_id`, `item.quantity`, `item.product`). -/
structure CartItem where
  id : String
  product_id : String
  quantity : ℤ
  product : ProductRow
  deriving DecidableEq, Repr

/-- Modelled from the spec: the Cart Engine's derived aggregate `totalPrice`
(§4.1: "sum of quantity × product price over all lines"); the implementation
file `CartContext` is not among the sources. -/
def totalPrice (items : List CartItem) : ℚ :=
  (items.map (fun it => (it.quantity : ℚ) * it.product.price)).sum

/-- Modelled from the spec: the Cart Engine's derived aggregate `totalItems`
(§4.1: "sum of quantities"). -/
def totalItems (items : List CartItem) : ℤ :=
  (items.map (fun it => it.quantity)).sum

/-- Whether a `cart_items` row belongs to user `uid` and product `pid`. -/
def rowMatches (uid pid : String) (c : CartItemRow) : Bool :=
  c.user_id = uid && c.product_id = pid

/-- Error taxonomy of the Cart Engine (spec §7). -/
inductive CartError
  | invalidQuantity
  | notFound
  | identityAbsent
  deriving DecidableEq, Repr

/-- Modelled from the spec: Cart Engine `addToCart(productId, quantity=1)`
(§4.1): reject non-positive quantity with `InvalidQuantityError`; if a
CartLine for (user, productId) exists, increment its quantity by `quantity`;
else create a new CartLine with that quantity.  `newId` stands for the
store-generated id of a freshly inserted row. -/
def addToCart (uid pid : String) (q : ℤ) (newId : String)
    (cart : List CartItemRow) : Except CartError (List CartItemRow) :=
  if q ≤ 0 then .error .invalidQuantity
  else if cart.any (rowMatches uid pid) then
    .ok (cart.map fun c =>
      if rowMatches uid pid c then { c with quantity := c.quantity + q } else c)
  else
    .ok (cart ++ [{ id := newId, user_id := uid, product_id := pid, quantity := q }])

/-- Modelled from the spec: Cart Engine `removeFromCart(productId)` (§4.1):
deletes the CartLine for (user, productId) if present; no-op, not an error,
if absent. -/
def removeFromCart (uid pid : String) (cart : List CartItemRow) : List CartItemRow :=
  cart.filter (fun c => !rowMatches uid pid c)

/-- Modelled from the spec: Cart Engine `updateQuantity(productId,
newQuantity)` (§4.1): if `newQuantity <= 0` this is equivalent to
`removeFromCart(productId)`; otherwise updates the existing CartLine's
quantity, failing with `NotFoundError` if no CartLine exists for the
product. -/
def updateQuantity (uid pid : String) (newQuantity : ℤ)
    (cart : List CartItemRow) : Except CartError (List CartItemRow) :=
  if newQuantity ≤ 0 then .ok (removeFromCart uid pid cart)
  else if cart.any (rowMatches uid pid) then
    .ok (cart.map fun c =>
      if rowMatches uid pid c then { c with quantity := newQuantity } else c)
  else .error .notFound

/-- Modelled from the spec: Cart Engine `clearCart()` (§4.1): deletes all
CartLine rows for the current user. -/
def clearCart (uid : String) (cart : List CartItemRow) : List CartItemRow :=
  cart.filter (fun c => c.user_id ≠ uid)

/-- Catalog management changing a live product price.  Modelled from the
spec: product rows are "created/updated by catalog management (out of
scope)" (§3); such an update touches only the `products` table. -/
def updateProductPrice (pid : String) (newPrice : ℚ) (db : DB) : DB :=
  { db with products := db.products.map fun p =>
      if p.id = pid then { p with price := newPrice } else p }

/-- Outcome of a `handleCheckout` run, from `src/app/(tabs)/cart.tsx`:
`emptyCart` is the early return behind the "Carrinho Vazio" alert;
`noUser` is the exception thrown by `user!.id` when no user is present
(caught by the surrounding try/catch and reported as an error alert);
`orderInsertFailed` and `itemsInsertFailed` are the two `throw`n store
errors, likewise reported via the catch block's error alert. -/
inductive CheckoutResult
  | emptyCart
  | noUser
  | orderInsertFailed
  | itemsInsertFailed
  | success (orderId : String)
  deriving DecidableEq, Repr

/-- The order-items payload built by `handleCheckout`
(`items.map(item => ({ order_id, product_id, quantity, price }))`,
cart.tsx lines 79–84): one row per cart line, copying the quantity and the
snapshot product price. -/
def orderItemsOf (orderId : String) (items : List CartItem) : List OrderItemRow :=
  items.map fun item =>
    { order_id := orderId
      product_id := item.product_id
      quantity := item.quantity
      price := item.product.price }

/-- The `orders` row built by `handleCheckout`
(`{ user_id: user!.id, total_amount: totalPrice, status: 'pending' }`,
cart.tsx lines 66–72), with `newOrderId` the store-generated id returned by
`.select().single()`. -/
def orderRowOf (uid newOrderId : String) (items : List CartItem) : OrderRow :=
  { id := newOrderId
    user_id := uid
    total_amount := totalPrice items
    status := .pending }

/-- `handleCheckout` from `src/app/(tabs)/cart.tsx` (confirmed path of the
dialog):
 1. if `items.length === 0`, alert "Carrinho Vazio" and return (no writes);
 2. insert the order row `{ user_id: user!.id, total_amount: totalPrice,
    status: 'pending' }` — reading `user!.id` of a missing user throws
    before the insert is issued; a store error (`orderError`) is thrown;
 3. insert the mapped `order_items` rows; a store error (`itemsError`) is
    thrown — NOTE: the catch block only alerts, it does not delete the
    order row inserted in step 2;
 4. `await clearCart()`.
`orderInsertOk` / `itemsInsertOk` are fault-injection switches for the two
store inserts; `newOrderId` is the store-generated order id. -/
def handleCheckout (user : Option String) (items : List CartItem) (db : DB)
    (newOrderId : String) (orderInsertOk itemsInsertOk : Bool) :
    CheckoutResult × DB :=
  if items.length = 0 then (.emptyCart, db)
  else
    match user with
    | none => (.noUser, db)
    | some uid =>
      if orderInsertOk = false then (.orderInsertFailed, db)
      else
        let order := orderRowOf uid newOrderId items
        let db1 := { db with orders := db.orders ++ [order] }
        if itemsInsertOk = false then (.itemsInsertFailed, db1)
        else
          let db2 := { db1 with order_items := db1.order_items ++ orderItemsOf order.id items }
          let db3 := { db2 with cart_items := clearCart uid db2.cart_items }
          (.success order.id, db3)

/-- Whether a checkout outcome is the success alert path. -/
def CheckoutResult.isSuccess : CheckoutResult → Bool
  | .success _ => true
  | _ => false

/-- One Cart Engine operation, as exposed to the presentation layer
(spec §4.1): load, add, set-quantity, remove, clear. -/
inductive CartOp
  | load
  | add (pid : String) (q : ℤ) (newId : String)
  | setQty (pid : String) (q : ℤ)
  | remove (pid : String)
  | clear
  deriving DecidableEq, Repr

/-- Modelled from the spec: running one Cart Engine operation against the
current identity (`CartContext` is not among the sources).  §6: "absence of
an identity is a precondition failure for every cart/checkout operation";
§4.1: "on failure the in-memory state must remain unchanged (no partial
local mutation) and the error is surfaced to the caller". -/
def runCartOp (user : Option String) (op : CartOp)
    (cart : List CartItemRow) : Except CartError Unit × List CartItemRow :=
  match user with
  | none => (.error .identityAbsent, cart)
  | some uid =>
    match op with
    | .load => (.ok (), cart)
    | .add pid q newId =>
      match addToCart uid pid q newId cart with
      | .ok c => (.ok (), c)
      | .error e => (.error e, cart)
    | .setQty pid q =>
      match updateQuantity uid pid q cart with
      | .ok c => (.ok (), c)
      | .error e => (.error e, cart)
    | .remove pid => (.ok (), removeFromCart uid pid cart)
    | .clear => (.ok (), clearCart uid cart)

/-- Modelled from the spec: a sequence of `addToCart` calls for one product
(spec §8, first testable property).  A call that fails surfaces its error
and leaves the cart unchanged (§4.1); each call carries the quantity passed
and the store-generated id a fresh row would get. -/
def applyAdds (uid pid : String) (calls : List (ℤ × String))
    (cart : List CartItemRow) : List CartItemRow :=
  match calls with
  | [] => cart
  | (q, newId) :: rest =>
    match addToCart uid pid q newId cart with
    | .ok c => applyAdds uid pid rest c
    | .error _ => applyAdds uid pid rest cart

/-- The cart lines for (user, product): the quantity column of the matching
`cart_items` rows. -/
def matchQty (uid pid : String) (cart : List CartItemRow) : List ℤ :=
  (cart.filter (rowMatches uid pid)).map (fun c => c.quantity)

/-! ### Row-level security policies

From `src/supabase/migrations/20250607032402_wooden_villa.sql`: RLS is
enabled on all five tables and the twelve `CREATE POLICY` statements below
are issued.  With RLS enabled, a command is available to a role on a table
only if some policy for that table and command includes the role (the
per-row `USING` / `WITH CHECK` predicates are abstracted away: the claims
here are about which commands are granted at all). -/

/-- SQL command classes a policy can cover. -/
inductive SqlCmd
  | select
  | insert
  | update
  | delete
  deriving DecidableEq, Repr

/-- Database roles appearing in the migration's `TO` clauses. -/
inductive DbRole
  | anon
  | authenticated
  deriving DecidableEq, Repr

/-- One `CREATE POLICY` statement: target table, command, granted roles. -/
structure Policy where
  table : String
  cmd : SqlCmd
  roles : List DbRole
  deriving DecidableEq, Repr

/-- The twelve policies of the migration, in order. -/
def policies : List Policy :=
  [ { table := "categories", cmd := .select, roles := [.anon, .authenticated] }
  , { table := "products", cmd := .select, roles := [.anon, .authenticated] }
  , { table := "cart_items", cmd := .select, roles := [.authenticated] }
  , { table := "cart_items", cmd := .insert, roles := [.authenticated] }
  , { table := "cart_items", cmd := .update, roles := [.authenticated] }
  , { table := "cart_items", cmd := .delete, roles := [.authenticated] }
  , { table := "orders", cmd := .select, roles := [.authenticated] }
  , { table := "orders", cmd := .insert, roles := [.authenticated] }
  , { table := "order_items", cmd := .select, roles := [.authenticated] }
  , { table := "order_items", cmd := .insert, roles := [.authenticated] } ]

/-- Tables on which the migration enables row-level security. -/
def rlsTables : List String :=
  ["categories", "products", "cart_items", "orders", "order_items"]

/-- Whether role `r` may run command `c` on table `t` under the migration's
RLS configuration: on an RLS-enabled table some policy must grant it. -/
def policyAllows (r : DbRole) (t : String) (c : SqlCmd) : Bool :=
  if rlsTables.contains t then
    policies.any (fun p => p.table = t && p.cmd = c && p.roles.contains r)
  else true

/-! ### Concrete sample data

The scenario of spec §8: Product A (price 10.00, quantity 2) and Product B
(price 5.50, quantity 1) in user u1's cart. -/

/-- Product A of the §8 scenario (price 10.00). -/
def productA : ProductRow := { id := "A", price := 10 }

/-- Product B of the §8 scenario (price 5.50). -/
def productB : ProductRow := { id := "B", price := 11 / 2 }

/-- The §8 scenario cart as in-memory cart lines. -/
def sampleItems : List CartItem :=
  [ { id := "c1", product_id := "A", quantity := 2, product := productA }
  , { id := "c2", product_id := "B", quantity := 1, product := productB } ]

/-- The §8 scenario cart as `cart_items` rows of user u1. -/
def sampleCart : List CartItemRow :=
  [ { id := "c1", user_id := "u1", product_id := "A", quantity := 2 }
  , { id := "c2", user_id := "u1", product_id := "B", quantity := 1 } ]

/-- A store holding the §8 scenario: the two products, u1's two cart rows,
no orders, no order items. -/
def sampleDB : DB :=
  { products := [productA, productB]
    cart_items := sampleCart
    orders := []
    order_items := [] }

/-! ### Theorems -/

/-- C3: invoking checkout on an empty cart fails with the empty-cart error
(the "Carrinho Vazio" early return) and performs zero store writes: the
store is returned unchanged, so no orders insert, no order_items insert and
no cart_items delete happens. -/
theorem checkout_empty_cart_no_writes (user : Option String)
    (items : List CartItem) (db : DB) (oid : String) (b1 b2 : Bool)
    (h : items = []) :
    handleCheckout user items db oid b1 b2 = (.emptyCart, db) := by
  subst h
  rfl

/-- Witness for C3 at the concrete empty cart. -/
theorem checkout_empty_cart_no_writes_witness :
    handleCheckout (some "u1") [] sampleDB "o1" true true = (.emptyCart, sampleDB) :=
  checkout_empty_cart_no_writes (some "u1") [] sampleDB "o1" true true rfl

/-- C2: whenever a checkout run does not reach the success branch — empty
cart, missing user, order insert failure or order-line insert failure — the
`cart_items` table is unchanged: the cart-clear step runs only after all
order-line inserts are confirmed persisted. -/
theorem checkout_failure_leaves_cart_untouched (user : Option String)
    (items : List CartItem) (db : DB) (oid : String) (b1 b2 : Bool)
    (h : (handleCheckout user items db oid b1 b2).1.isSuccess = false) :
    (handleCheckout user items db oid b1 b2).2.cart_items = db.cart_items := by
  unfold handleCheckout at h ⊢
  by_cases h0 : items.length = 0
  · simp [h0]
  · cases user with
    | none => simp [h0]
    | some uid =>
      cases b1 with
      | false => simp [h0]
      | true =>
        cases b2 with
        | false => simp [h0]
        | true => simp [h0, CheckoutResult.isSuccess] at h

/-- Witness for C2 at the concrete order-line insert failure. -/
theorem checkout_failure_leaves_cart_untouched_witness :
    (handleCheckout (some "u1") sampleItems sampleDB "o1" true false).2.cart_items =
      sampleDB.cart_items :=
  checkout_failure_leaves_cart_untouched (some "u1") sampleItems sampleDB "o1"
    true false (by decide)

/-- C9: with no authenticated identity, checkout fails (the `user!.id`
access throws, caught and surfaced as the error alert) with the store
unchanged, and every Cart Engine operation fails with the identity-absent
error leaving the cart rows unchanged. -/
theorem no_identity_fails_no_writes (items : List CartItem) (db : DB)
    (oid : String) (b1 b2 : Bool) (op : CartOp) (cart : List CartItemRow) :
    ((handleCheckout none items db oid b1 b2).1.isSuccess = false ∧
      (handleCheckout none items db oid b1 b2).2 = db) ∧
    (runCartOp none op cart).1 = .error .identityAbsent ∧
    (runCartOp none op cart).2 = cart := by
  refine ⟨⟨?_, ?_⟩, rfl, rfl⟩ <;>
  · unfold handleCheckout
    by_cases h0 : items.length = 0 <;> simp [h0, CheckoutResult.isSuccess]

/-- C1: fault-injection evaluation contradicting the rollback claim: with
the §8 cart, the order insert succeeding and the order-line insert failing,
`handleCheckout` surfaces the error but leaves the just-created Order row
visible in `orders` (with no order lines) — no compensating delete of the
order row exists in the code. -/
theorem checkout_line_failure_orphan_order :
    (handleCheckout (some "u1") sampleItems sampleDB "o1" true false).1 =
      .itemsInsertFailed ∧
    (handleCheckout (some "u1") sampleItems sampleDB "o1" true false).2.orders =
      [orderRowOf "u1" "o1" sampleItems] ∧
    (handleCheckout (some "u1") sampleItems sampleDB "o1" true false).2.order_items = [] ∧
    (handleCheckout (some "u1") sampleItems sampleDB "o1" true false).2.cart_items =
      sampleCart :=
  ⟨rfl, rfl, rfl, rfl⟩

/-- C10: the migration grants an authenticated user exactly SELECT and
INSERT on `orders` and on `order_items`; UPDATE and DELETE are not granted
by any policy, so in particular a client-side compensating DELETE of an
orphaned order row is denied by the access-policy layer. -/
theorem orders_policies_select_insert_only :
    (policyAllows .authenticated "orders" .select = true ∧
     policyAllows .authenticated "orders" .insert = true ∧
     policyAllows .authenticated "orders" .update = false ∧
     policyAllows .authenticated "orders" .delete = false) ∧
    (policyAllows .authenticated "order_items" .select = true ∧
     policyAllows .authenticated "order_items" .insert = true ∧
     policyAllows .authenticated "order_items" .update = false ∧
     policyAllows .authenticated "order_items" .delete = false) := by
  decide

/-- C4: a successful checkout on a non-empty cart of N lines appends exactly
one order row — status `pending`, `total_amount` the pre-checkout
`totalPrice` — appends exactly N order-line rows, and afterwards no cart
row of the user remains. -/
theorem checkout_success_shape (uid : String) (items : List CartItem)
    (db : DB) (oid : String) (h : items ≠ []) :
    (handleCheckout (some uid) items db oid true true).1 = .success oid ∧
    (handleCheckout (some uid) items db oid true true).2.orders =
      db.orders ++ [orderRowOf uid oid items] ∧
    (orderRowOf uid oid items).status = .pending ∧
    (orderRowOf uid oid items).total_amount = totalPrice items ∧
    (handleCheckout (some uid) items db oid true true).2.order_items =
      db.order_items ++ orderItemsOf oid items ∧
    (orderItemsOf oid items).length = items.length ∧
    ∀ c ∈ (handleCheckout (some uid) items db oid true true).2.cart_items,
      c.user_id ≠ uid := by
  have h0 : ¬ items.length = 0 := fun hl => h (List.length_eq_zero.mp hl)
  refine ⟨?_, ?_, rfl, rfl, ?_, ?_, ?_⟩ <;>
    simp [handleCheckout, h0, orderItemsOf, orderRowOf, clearCart]

/-- Witness for C4 at the §8 scenario cart. -/
theorem checkout_success_shape_witness :
    (handleCheckout (some "u1") sampleItems sampleDB "o1" true true).1 =
      .success "o1" ∧
    (handleCheckout (some "u1") sampleItems sampleDB "o1" true true).2.orders =
      sampleDB.orders ++ [orderRowOf "u1" "o1" sampleItems] ∧
    (orderRowOf "u1" "o1" sampleItems).status = .pending ∧
    (orderRowOf "u1" "o1" sampleItems).total_amount = totalPrice sampleItems ∧
    (handleCheckout (some "u1") sampleItems sampleDB "o1" true true).2.order_items =
      sampleDB.order_items ++ orderItemsOf "o1" sampleItems ∧
    (orderItemsOf "o1" sampleItems).length = sampleItems.length ∧
    ∀ c ∈ (handleCheckout (some "u1") sampleItems sampleDB "o1" true true).2.cart_items,
      c.user_id ≠ "u1" :=
  checkout_success_shape "u1" sampleItems sampleDB "o1" (by decide)

/-- C5: the order lines a successful checkout appends copy each cart line's
quantity and record the snapshot product price as `price`; rows already in
`order_items` are preserved unchanged, and a later change to a live product
price (an update to the `products` table) alters no `order_items` row. -/
theorem order_lines_freeze_price (uid oid pid : String)
    (items : List CartItem) (db : DB) (newPrice : ℚ) (h : items ≠ []) :
    (handleCheckout (some uid) items db oid true true).2.order_items =
      db.order_items ++ items.map (fun it =>
        { order_id := oid, product_id := it.product_id,
          quantity := it.quantity, price := it.product.price }) ∧
    (updateProductPrice pid newPrice
        (handleCheckout (some uid) items db oid true true).2).order_items =
      (handleCheckout (some uid) items db oid true true).2.order_items := by
  have h0 : ¬ items.length = 0 := fun hl => h (List.length_eq_zero.mp hl)
  constructor
  · simp [handleCheckout, h0, orderItemsOf, orderRowOf]
  · rfl

/-- Witness for C5 at the §8 scenario cart with a later price change on
product A. -/
theorem order_lines_freeze_price_witness :
    (handleCheckout (some "u1") sampleItems sampleDB "o1" true true).2.order_items =
      sampleDB.order_items ++ sampleItems.map (fun it =>
        { order_id := "o1", product_id := it.product_id,
          quantity := it.quantity, price := it.product.price }) ∧
    (updateProductPrice "A" 99 (handleCheckout (some "u1") sampleItems sampleDB "o1"
        true true).2).order_items =
      (handleCheckout (some "u1") sampleItems sampleDB "o1" true true).2.order_items :=
  order_lines_freeze_price "u1" "o1" "A" sampleItems sampleDB 99 (by decide)

/-- C6: the order row built at checkout carries `total_amount` equal to the
sum over the order lines built from the same cart snapshot of quantity times
the recorded line price, in exact rational arithmetic. -/
theorem order_total_eq_sum_of_lines (uid oid : String) (items : List CartItem) :
    (orderRowOf uid oid items).total_amount =
      ((orderItemsOf oid items).map (fun l => (l.quantity : ℚ) * l.price)).sum := by
  simp only [orderRowOf, orderItemsOf, totalPrice, List.map_map]
  rfl

/-- C8: `updateQuantity` with a non-positive quantity returns exactly the
cart `removeFromCart` returns; with a positive quantity and the line
present it rewrites that line's quantity. -/
theorem updateQuantity_spec (uid pid : String) (q : ℤ)
    (cart : List CartItemRow) :
    (q ≤ 0 → updateQuantity uid pid q cart = .ok (removeFromCart uid pid cart)) ∧
    (0 < q → cart.any (rowMatches uid pid) = true →
      updateQuantity uid pid q cart = .ok (cart.map fun c =>
        if rowMatches uid pid c then { c with quantity := q } else c)) := by
  constructor
  · intro hq
    simp [updateQuantity, hq]
  · intro hq hm
    simp only [updateQuantity]
    rw [if_neg (by omega), if_pos hm]

/-- Witness for C8: quantity 0 coincides with removal, quantity 5 rewrites
the line, on the §8 scenario cart. -/
theorem updateQuantity_spec_witness :
    updateQuantity "u1" "A" 0 sampleCart = .ok (removeFromCart "u1" "A" sampleCart) ∧
    updateQuantity "u1" "A" 5 sampleCart = .ok (sampleCart.map fun c =>
      if rowMatches "u1" "A" c then { c with quantity := 5 } else c) :=
  ⟨(updateQuantity_spec "u1" "A" 0 sampleCart).1 (by decide),
   (updateQuantity_spec "u1" "A" 5 sampleCart).2 (by decide) (by decide)⟩

/-- `addToCart` on a cart already holding a line for the product increments
that line in place (the branch taken when `cart.any` finds a match). -/
theorem addToCart_existing (uid pid : String) (q : ℤ) (newId : String)
    (cart : List CartItemRow) (hq : 0 < q)
    (hm : cart.any (rowMatches uid pid) = true) :
    addToCart uid pid q newId cart = .ok (cart.map fun c =>
      if rowMatches uid pid c then { c with quantity := c.quantity + q } else c) := by
  simp only [addToCart]
  rw [if_neg (by omega), if_pos hm]

/-- `addToCart` on a cart with no line for the product appends a fresh row
carrying the quantity passed. -/
theorem addToCart_fresh (uid pid : String) (q : ℤ) (newId : String)
    (cart : List CartItemRow) (hq : 0 < q)
    (hm : cart.any (rowMatches uid pid) = false) :
    addToCart uid pid q newId cart =
      .ok (cart ++ [{ id := newId, user_id := uid, product_id := pid, quantity := q }]) := by
  simp only [addToCart]
  rw [if_neg (by omega), if_neg (by simp [hm])]

/-- The in-place update of `addToCart` changes no line's user or product
columns, so it preserves `rowMatches`. -/
theorem rowMatches_inc (uid pid : String) (q : ℤ) (c : CartItemRow) :
    rowMatches uid pid
      (if rowMatches uid pid c then { c with quantity := c.quantity + q } else c) =
      rowMatches uid pid c := by
  by_cases hc : rowMatches uid pid c = true
  · rw [if_pos hc]
    rfl
  · rw [if_neg hc]

/-- Incrementing the matching lines commutes with filtering for them. -/
theorem filter_addToCart_update (uid pid : String) (q : ℤ)
    (cart : List CartItemRow) :
    (cart.map fun c =>
        if rowMatches uid pid c then { c with quantity := c.quantity + q } else c).filter
        (rowMatches uid pid) =
      (cart.filter (rowMatches uid pid)).map
        (fun c => { c with quantity := c.quantity + q }) := by
  rw [List.filter_map]
  have hcong : ∀ c ∈ cart,
      (rowMatches uid pid ∘ fun c =>
        if rowMatches uid pid c then { c with quantity := c.quantity + q } else c) c =
      rowMatches uid pid c := fun c _ => rowMatches_inc uid pid q c
  rw [List.filter_congr hcong]
  exact List.map_congr_left fun c hc => by
    simp [(List.mem_filter.mp hc).2]

/-- Running a sequence of positive-quantity `addToCart` calls over a cart
holding exactly one line for the product leaves exactly that line, its
quantity grown by the sum of the quantities passed. -/
theorem applyAdds_single_line (uid pid : String) (calls : List (ℤ × String)) :
    ∀ (cart : List CartItemRow) (c0 : CartItemRow),
      (∀ c ∈ calls, 0 < c.1) →
      cart.filter (rowMatches uid pid) = [c0] →
      (applyAdds uid pid calls cart).filter (rowMatches uid pid) =
        [{ c0 with quantity := c0.quantity + (calls.map Prod.fst).sum }] := by
  induction calls with
  | nil =>
    intro cart c0 _ hf
    simp only [applyAdds, List.map_nil, List.sum_nil, add_zero]
    rw [hf]
  | cons hd rest ih =>
    intro cart c0 hpos hf
    obtain ⟨q, i⟩ := hd
    have hq : 0 < q := hpos (q, i) (List.mem_cons_self _ _)
    have hc0 : c0 ∈ cart.filter (rowMatches uid pid) := by
      rw [hf]; exact List.mem_singleton_self _
    have hany : cart.any (rowMatches uid pid) = true :=
      List.any_eq_true.mpr ⟨c0, (List.mem_filter.mp hc0).1, (List.mem_filter.mp hc0).2⟩
    have hstep : applyAdds uid pid ((q, i) :: rest) cart =
        applyAdds uid pid rest (cart.map fun c =>
          if rowMatches uid pid c then { c with quantity := c.quantity + q } else c) := by
      simp only [applyAdds, addToCart_existing uid pid q i cart hq hany]
    have hf2 : (cart.map fun c =>
        if rowMatches uid pid c then { c with quantity := c.quantity + q } else c).filter
          (rowMatches uid pid) = [{ c0 with quantity := c0.quantity + q }] := by
      rw [filter_addToCart_update, hf]
      rfl
    have hrec := ih _ _ (fun c hc => hpos c (List.mem_cons_of_mem _ hc)) hf2
    rw [hstep, hrec]
    simp [add_assoc]

/-- C7: starting from a cart with no line for the product, any non-empty
sequence of positive-quantity `addToCart` calls for that product leaves
exactly one cart line for the (user, product) pair, and its quantity is the
sum of the quantities passed. -/
theorem addToCart_sequence_unique_line (uid pid : String)
    (calls : List (ℤ × String)) (cart : List CartItemRow)
    (h0 : cart.filter (rowMatches uid pid) = [])
    (hne : calls ≠ [])
    (hpos : ∀ c ∈ calls, 0 < c.1) :
    ((applyAdds uid pid calls cart).filter (rowMatches uid pid)).length = 1 ∧
    matchQty uid pid (applyAdds uid pid calls cart) =
      [(calls.map Prod.fst).sum] := by
  obtain ⟨⟨q, i⟩, rest, rfl⟩ : ∃ hd rest, calls = hd :: rest := by
    cases calls with
    | nil => exact absurd rfl hne
    | cons hd rest => exact ⟨hd, rest, rfl⟩
  have hq : 0 < q := hpos (q, i) (List.mem_cons_self _ _)
  have hany : cart.any (rowMatches uid pid) = false := by
    rw [List.any_eq_false]
    exact fun c hc => List.filter_eq_nil_iff.mp h0 c hc
  have hstep : applyAdds uid pid ((q, i) :: rest) cart =
      applyAdds uid pid rest
        (cart ++ [{ id := i, user_id := uid, product_id := pid, quantity := q }]) := by
    simp only [applyAdds, addToCart_fresh uid pid q i cart hq hany]
  have hrow : rowMatches uid pid
      { id := i, user_id := uid, product_id := pid, quantity := q } = true := by
    simp [rowMatches]
  have hfilter : (cart ++
      [({ id := i, user_id := uid, product_id := pid, quantity := q } : CartItemRow)]).filter
        (rowMatches uid pid) =
      [({ id := i, user_id := uid, product_id := pid, quantity := q } : CartItemRow)] := by
    rw [List.filter_append, h0]
    simp [hrow]
  have hrec := applyAdds_single_line uid pid rest _ _
    (fun c hc => hpos c (List.mem_cons_of_mem _ hc)) hfilter
  rw [hstep]
  constructor
  · rw [hrec]
    rfl
  · unfold matchQty
    rw [hrec]
    simp

/-- Witness for C7: the §8 scenario `addToCart("X", 1)` then
`addToCart("X", 2)` on an empty cart yields one line for X with
quantity 3. -/
theorem addToCart_sequence_unique_line_witness :
    ((applyAdds "u1" "X" [(1, "i1"), (2, "i2")] []).filter
        (rowMatches "u1" "X")).length = 1 ∧
    matchQty "u1" "X" (applyAdds "u1" "X" [(1, "i1"), (2, "i2")] []) = [3] := by
  have h := addToCart_sequence_unique_line "u1" "X" [(1, "i1"), (2, "i2")] []
    (by decide) (by decide) (by decide)
  simpa using h

end MundoKids
